import Mathlib

/-!
Verification of the narrative-state engine of the Dungeon Explorer game
(`main.py`, `game_utils.py`, `llmlite.py`).

The generation service (`llmlite.LLM.generate_json`) hands every caller a
parsed JSON document (a Python `dict`); on a transport failure `generate`
returns `""`, whose parse fails, whose brace-recovery finds no braces, and
`generate_json` returns the empty dict (llmlite.py lines 87-101).  The
engine is therefore embedded as a family of pure functions from the current
game state and that parsed response dict to the next game state.  JSON
values are modelled by `JsonVal` (numbers as `Int`; the engine never
computes with numbers), dicts by association lists, and Python truthiness
by `JsonVal.truthy`.  Paths on which the Python code raises (`KeyError`
from a raw `[]` access, `TypeError` from `len` or iteration on a
non-sized value) are modelled with `Except`, the error string naming the
Python exception.
-/

/-- Values of a parsed JSON document, as `json.loads` hands them to the
game: `None`, booleans, numbers, strings, arrays and objects.  Numbers are
modelled as `Int`; the engine only stores and compares them. -/
inductive JsonVal where
  | null
  | bool (b : Bool)
  | num (n : Int)
  | str (s : String)
  | list (xs : List JsonVal)
  | obj (fields : List (String × JsonVal))
deriving Repr

/-- A parsed JSON object (a Python dict with string keys), as an
association list. -/
abbrev Dict := List (String × JsonVal)

mutual

/-- Structural equality of JSON values, Python's `==` on the documents the
engine handles. -/
def JsonVal.beq : JsonVal → JsonVal → Bool
  | .null, .null => true
  | .bool a, .bool b => a == b
  | .num a, .num b => a == b
  | .str a, .str b => a == b
  | .list xs, .list ys => JsonVal.beqList xs ys
  | .obj xs, .obj ys => JsonVal.beqObj xs ys
  | _, _ => false

/-- Pointwise equality of JSON arrays. -/
def JsonVal.beqList : List JsonVal → List JsonVal → Bool
  | [], [] => true
  | x :: xs, y :: ys => JsonVal.beq x y && JsonVal.beqList xs ys
  | _, _ => false

/-- Pointwise equality of JSON objects (key order significant, as in an
association list). -/
def JsonVal.beqObj : List (String × JsonVal) → List (String × JsonVal) → Bool
  | [], [] => true
  | (k, v) :: xs, (l, w) :: ys => k == l && JsonVal.beq v w && JsonVal.beqObj xs ys
  | _, _ => false

end

mutual

theorem JsonVal.beq_refl : ∀ a : JsonVal, JsonVal.beq a a = true
  | .null => rfl
  | .bool a => by simp [JsonVal.beq]
  | .num a => by simp [JsonVal.beq]
  | .str a => by simp [JsonVal.beq]
  | .list xs => by simp [JsonVal.beq, JsonVal.beqList_refl xs]
  | .obj xs => by simp [JsonVal.beq, JsonVal.beqObj_refl xs]

theorem JsonVal.beqList_refl : ∀ xs : List JsonVal, JsonVal.beqList xs xs = true
  | [] => rfl
  | x :: xs => by simp [JsonVal.beqList, JsonVal.beq_refl x, JsonVal.beqList_refl xs]

theorem JsonVal.beqObj_refl : ∀ xs : List (String × JsonVal), JsonVal.beqObj xs xs = true
  | [] => rfl
  | (k, v) :: xs => by simp [JsonVal.beqObj, JsonVal.beq_refl v, JsonVal.beqObj_refl xs]

end

mutual

theorem JsonVal.eq_of_beq : ∀ a b : JsonVal, JsonVal.beq a b = true → a = b
  | .null, b, h => by cases b <;> simp_all [JsonVal.beq]
  | .bool a, b, h => by cases b <;> simp_all [JsonVal.beq]
  | .num a, b, h => by cases b <;> simp_all [JsonVal.beq]
  | .str a, b, h => by cases b <;> simp_all [JsonVal.beq]
  | .list xs, b, h => by
      cases b <;> simp_all [JsonVal.beq]
      exact JsonVal.eqList_of_beqList xs _ h
  | .obj xs, b, h => by
      cases b <;> simp_all [JsonVal.beq]
      exact JsonVal.eqObj_of_beqObj xs _ h

theorem JsonVal.eqList_of_beqList : ∀ xs ys : List JsonVal, JsonVal.beqList xs ys = true → xs = ys
  | [], [], _ => rfl
  | [], _ :: _, h => by simp [JsonVal.beqList] at h
  | _ :: _, [], h => by simp [JsonVal.beqList] at h
  | x :: xs, y :: ys, h => by
      simp only [JsonVal.beqList, Bool.and_eq_true] at h
      rw [JsonVal.eq_of_beq x y h.1, JsonVal.eqList_of_beqList xs ys h.2]

theorem JsonVal.eqObj_of_beqObj :
    ∀ xs ys : List (String × JsonVal), JsonVal.beqObj xs ys = true → xs = ys
  | [], [], _ => rfl
  | [], _ :: _, h => by simp [JsonVal.beqObj] at h
  | _ :: _, [], h => by simp [JsonVal.beqObj] at h
  | (k, v) :: xs, (l, w) :: ys, h => by
      simp only [JsonVal.beqObj, Bool.and_eq_true] at h
      obtain ⟨⟨hk, hv⟩, hrest⟩ := h
      have hk2 : k = l := by simpa using hk
      rw [hk2, JsonVal.eq_of_beq v w hv, JsonVal.eqObj_of_beqObj xs ys hrest]

end

instance : DecidableEq JsonVal := fun a b =>
  decidable_of_iff (JsonVal.beq a b = true)
    ⟨JsonVal.eq_of_beq a b, fun h => h ▸ JsonVal.beq_refl a⟩

/-- Python truthiness of a JSON value: `None`, `False`, `0`, `""`, `[]`
and the empty object are falsy, everything else truthy. -/
def JsonVal.truthy : JsonVal → Bool
  | .null => false
  | .bool b => b
  | .num n => n != 0
  | .str s => s != ""
  | .list xs => !xs.isEmpty
  | .obj fs => !fs.isEmpty

/-- Key lookup in a parsed JSON object: `d[k]` as `some`, a missing key as
`none` (Python's `k in d` test is `(lookup d k).isSome`). -/
def lookup : Dict → String → Option JsonVal
  | [], _ => none
  | (k, v) :: rest, key => if k = key then some v else lookup rest key

/-- Python iteration over a JSON value, as used by `list.extend` and
`for _ in _`: an array yields its elements, a string its characters, an
object its keys; `None`, booleans and numbers raise `TypeError`. -/
def pyIterList : JsonVal → Except String (List JsonVal)
  | .list xs => .ok xs
  | .str s => .ok (s.toList.map (fun c => .str (String.singleton c)))
  | .obj fs => .ok (fs.map (fun p => .str p.1))
  | _ => .error "TypeError: object is not iterable"

/-- Python `len` of a JSON value: arrays, strings and objects are sized,
everything else raises `TypeError`. -/
def pyLen : JsonVal → Option Nat
  | .str s => some s.length
  | .list xs => some xs.length
  | .obj fs => some fs.length
  | _ => none

/-- The persistent game state `Game.game_state` (main.py lines 16-26),
with the dynamically added keys `location_description` and `custom_title`
(absent until first assigned) as `Option`.  `history` entries are the
`{action, result}` pairs the code appends. -/
structure GameState where
  story_context : Dict
  player : JsonVal
  current_location : JsonVal
  location_description : Option JsonVal
  inventory : List JsonVal
  characters_met : List JsonVal
  current_goal : JsonVal
  completed_goals : List JsonVal
  history : List (String × JsonVal)
  custom_title : Option JsonVal
deriving Repr, DecidableEq

/-- The state `Game.__init__` builds (main.py lines 16-26). -/
def initialState : GameState where
  story_context := []
  player := JsonVal.obj []
  current_location := JsonVal.str ""
  location_description := none
  inventory := []
  characters_met := []
  current_goal := JsonVal.str ""
  completed_goals := []
  history := []
  custom_title := none

/-- The response `generate_json` yields when the service call fails or the
reply is unparseable: the empty dict (llmlite.py lines 62-64 and 87-101). -/
def generate_json_failure : Dict := []

/-- `Game._get_default_game_context` (main.py lines 59-95), transcribed
field for field. -/
def default_game_context : Dict :=
  [("theme", JsonVal.str "Ancient cursed temple"),
   ("conflict", JsonVal.str "A powerful artifact is causing monsters to appear"),
   ("possible_solutions", JsonVal.list
     [JsonVal.str "Destroy the artifact",
      JsonVal.str "Return the artifact to its rightful place",
      JsonVal.str "Use the artifact to seal the temple"]),
   ("characters", JsonVal.list
     [JsonVal.obj
       [("name", JsonVal.str "Old Sage"),
        ("description", JsonVal.str "A wise old man who knows the temple's history"),
        ("motivation", JsonVal.str "Wants to preserve knowledge"),
        ("help", JsonVal.str "Can provide information about the artifact")],
      JsonVal.obj
       [("name", JsonVal.str "Temple Guardian"),
        ("description", JsonVal.str "A magical construct protecting the temple"),
        ("motivation", JsonVal.str "Follows ancient orders to protect the artifact"),
        ("hinder", JsonVal.str "Will attack anyone trying to take the artifact")],
      JsonVal.obj
       [("name", JsonVal.str "Treasure Hunter"),
        ("description", JsonVal.str "A rival explorer seeking the artifact"),
        ("motivation", JsonVal.str "Wants to sell the artifact for profit"),
        ("hinder", JsonVal.str "Will try to steal the artifact from the player")]]),
   ("failure_cases", JsonVal.list
     [JsonVal.str "Getting trapped in the temple forever",
      JsonVal.str "Releasing an ancient evil by misusing the artifact"]),
   ("main_goal", JsonVal.str
     "Find and deal with the cursed artifact to stop the monster invasion"),
   ("initial_goal", JsonVal.str
     "Explore the temple entrance and find clues about the artifact's location")]

/-- `Game.initialize_game` (main.py lines 28-57) applied to the response
dict the generation call produced.  A truthy (non-empty) dict becomes the
story context, with the goal taken from `initial_goal` when the key is
present and a fallback string otherwise; a falsy dict (failed or
unparseable generation) installs the default context and its fallback
goal. -/
def init_game (st : GameState) (story_context : Dict) : GameState :=
  match story_context with
  | [] =>
    { st with
      story_context := default_game_context,
      current_goal := JsonVal.str "Find the source of the monsters and deal with the artifact" }
  | _ =>
    { st with
      story_context := story_context,
      current_goal :=
        match lookup story_context "initial_goal" with
        | some v => v
        | none => JsonVal.str "Explore the area and discover your purpose" }

/-- `Game._create_default_player` (main.py lines 130-138). -/
def create_default_player (st : GameState) : GameState :=
  { st with
    player := JsonVal.obj
      [("name", JsonVal.str "Adventurer"),
       ("background", JsonVal.str "A brave explorer seeking fortune and glory")],
    inventory := [JsonVal.str "torch", JsonVal.str "rope", JsonVal.str "dagger"],
    current_location := JsonVal.str "Temple Entrance",
    location_description := some (JsonVal.str
      "A massive stone doorway covered in ancient runes. The air feels heavy with magic.") }

/-- `Game.create_player` (main.py lines 97-128) applied to the response
dict.  The guard checks only that the dict is truthy and contains
`player_name`; the branch then reads `player_background`,
`starting_items`, `starting_location` and `location_description` with raw
`[]` accesses, in that order, so any of them being absent raises
`KeyError` (Python performs the raise after some of the assignments have
already happened; the partially mutated state is not observable through
any claim and is dropped here).  A `starting_items` value that is not a
JSON array would leave `inventory` holding a non-array value; no claim
reaches that state and it is modelled as an error. -/
def create_player (st : GameState) (player_data : Dict) : Except String GameState :=
  match lookup player_data "player_name" with
  | some nm =>
    match lookup player_data "player_background" with
    | none => .error "KeyError: player_background"
    | some bg =>
      match lookup player_data "starting_items" with
      | none => .error "KeyError: starting_items"
      | some items =>
        match lookup player_data "starting_location" with
        | none => .error "KeyError: starting_location"
        | some loc =>
          match lookup player_data "location_description" with
          | none => .error "KeyError: location_description"
          | some locd =>
            match items with
            | JsonVal.list its =>
              .ok { st with
                player := JsonVal.obj [("name", nm), ("background", bg)],
                inventory := its,
                current_location := loc,
                location_description := some locd }
            | _ => .error "TypeError: starting_items is not a JSON array"
  | none => .ok (create_default_player st)

/-- The fixed default choice list of `Game.get_player_choices`
(main.py lines 160-165). -/
def default_choices : List JsonVal :=
  [JsonVal.str "Explore deeper into the dungeon",
   JsonVal.str "Search the current area",
   JsonVal.str "Check your inventory",
   JsonVal.str "Rest and recover"]

/-- `Game.get_player_choices` (main.py lines 140-165) applied to the
response dict: the `choices` value is returned exactly when the dict is
truthy, the key is present and `len` of its value is 4; every other
response yields the fixed default list.  (`len` of a sized non-array
value, e.g. a 4-character string, also passes the guard, faithfully to
the source; `len` of an unsized value raises `TypeError`.)  A falsy dict
has no keys, so the truthiness test needs no separate case. -/
def get_player_choices (choices_data : Dict) : Except String JsonVal :=
  match lookup choices_data "choices" with
  | some v =>
    match pyLen v with
    | some n => if n = 4 then .ok v else .ok (JsonVal.list default_choices)
    | none => .error "TypeError: object has no length"
  | none => .ok (JsonVal.list default_choices)

/-- Step 2 of `Game.process_player_action` (main.py lines 209-212): a
truthy `new_location` overwrites the location, and the description is
overwritten with `action_result.get("location_description", "")` — the
supplied value, or the empty string when the key is absent. -/
def updateLocation (d : Dict) (st : GameState) : GameState :=
  match lookup d "new_location" with
  | some v =>
    if v.truthy then
      { st with
        current_location := v,
        location_description := some ((lookup d "location_description").getD (JsonVal.str "")) }
    else st
  | none => st

/-- Step 3 of `Game.process_player_action` (main.py lines 214-219): a
truthy `items_gained` is appended to the inventory by `list.extend`. -/
def gainItems (d : Dict) (st : GameState) : Except String GameState :=
  match lookup d "items_gained" with
  | some v =>
    if v.truthy then
      match pyIterList v with
      | .ok gs => .ok { st with inventory := st.inventory ++ gs }
      | .error e => .error e
    else .ok st
  | none => .ok st

/-- The inventory after the `items_lost` loop (main.py lines 223-225):
for each lost item in order, remove its first occurrence if present,
silently skip it otherwise. -/
def removeItems (inv : List JsonVal) (lost : List JsonVal) : List JsonVal :=
  lost.foldl (fun acc item => if item ∈ acc then acc.erase item else acc) inv

/-- Step 4 of `Game.process_player_action` (main.py lines 221-227): a
truthy `items_lost` is iterated, removing present items one occurrence at
a time. -/
def loseItems (d : Dict) (st : GameState) : Except String GameState :=
  match lookup d "items_lost" with
  | some v =>
    if v.truthy then
      match pyIterList v with
      | .ok ls => .ok { st with inventory := removeItems st.inventory ls }
      | .error e => .error e
    else .ok st
  | none => .ok st

/-- Step 5 of `Game.process_player_action` (main.py lines 229-234): a
truthy `character_encountered` is appended to `characters_met` unless
already present. -/
def meetCharacter (d : Dict) (st : GameState) : GameState :=
  match lookup d "character_encountered" with
  | some c =>
    if c.truthy ∧ c ∉ st.characters_met
    then { st with characters_met := st.characters_met ++ [c] }
    else st
  | none => st

/-- Step 6 of `Game.process_player_action` (main.py lines 236-245): on a
truthy `goal_completed`, the current goal is appended to
`completed_goals` when truthy and not already present, and then a truthy
`new_goal` — and only a truthy `new_goal` — overwrites `current_goal`. -/
def updateGoal (d : Dict) (st : GameState) : GameState :=
  match lookup d "goal_completed" with
  | some gc =>
    if gc.truthy then
      let completed_goal := st.current_goal
      let st1 :=
        if completed_goal.truthy ∧ completed_goal ∉ st.completed_goals
        then { st with completed_goals := st.completed_goals ++ [completed_goal] }
        else st
      match lookup d "new_goal" with
      | some v => if v.truthy then { st1 with current_goal := v } else st1
      | none => st1
    else st
  | none => st

/-- `Game.process_player_action` (main.py lines 167-257) applied to the
response dict: when the dict is truthy and carries `action_result`, the
result is logged to `history` and the location, inventory, character and
goal steps run in order; otherwise only the fixed no-op entry is logged.
A falsy dict has no keys, so the truthiness half of the guard needs no
separate case. -/
def process_player_action (st : GameState) (action : String) (d : Dict) :
    Except String GameState :=
  match lookup d "action_result" with
  | some r =>
    let st1 := { st with history := st.history ++ [(action, r)] }
    let st2 := updateLocation d st1
    match gainItems d st2 with
    | .error e => .error e
    | .ok st3 =>
      match loseItems d st3 with
      | .error e => .error e
      | .ok st4 => .ok (updateGoal d (meetCharacter d st4))
  | none =>
    .ok { st with history := st.history ++ [(action, JsonVal.str "Nothing significant happened.")] }

/-- A whole play session after setup: each turn's chosen action together
with the response dict its generation call produced, processed in order. -/
def processActions (st : GameState) : List (String × Dict) → Except String GameState
  | [] => .ok st
  | (a, d) :: rest =>
    match process_player_action st a d with
    | .ok st' => processActions st' rest
    | .error e => .error e

/-- A goal-completing outcome that supplies a fresh replacement goal: if
`goal_completed` is truthy then `new_goal` is present, truthy, not among
the completed goals and different from the active goal.  Outcomes that do
not complete the goal are unconstrained. -/
def goalSafeStepB (st : GameState) (d : Dict) : Bool :=
  match lookup d "goal_completed" with
  | some gc =>
    if gc.truthy then
      match lookup d "new_goal" with
      | some v => v.truthy && !(decide (v ∈ st.completed_goals)) && !(decide (v = st.current_goal))
      | none => false
    else true
  | none => true

/-- Every step of the trace is goal-safe in the state it actually runs
in (an erroring trace is vacuously safe from the error on). -/
def goalSafeTraceB (st : GameState) : List (String × Dict) → Bool
  | [] => true
  | (a, d) :: rest =>
    goalSafeStepB st d &&
      (match process_player_action st a d with
       | .ok st' => goalSafeTraceB st' rest
       | .error _ => true)

/-- The list of items a response's `items_gained` field actually appends:
the empty list when the key is absent or its value falsy, the elements
when the value is a JSON array, and undefined (`none`) otherwise.  A
theorem-side accessor used to quantify over well-shaped outcomes. -/
def effectiveGained (d : Dict) : Option (List JsonVal) :=
  match lookup d "items_gained" with
  | none => some []
  | some v =>
    if v.truthy then
      match v with
      | JsonVal.list xs => some xs
      | _ => none
    else some []

/-- One `history` entry as `json.dump` writes it: the dict
`{"action": ..., "result": ...}`. -/
def encodeHistoryEntry (p : String × JsonVal) : JsonVal :=
  JsonVal.obj [("action", JsonVal.str p.1), ("result", p.2)]

/-- `game_utils.save_game` (game_utils.py lines 373-382): the full game
state serialized as one JSON document, keys exactly those present in the
Python dict (`location_description` and `custom_title` appear only once
set). -/
def save_game (s : GameState) : JsonVal :=
  JsonVal.obj
    ([("story_context", JsonVal.obj s.story_context),
      ("player", s.player),
      ("current_location", s.current_location)] ++
     (match s.location_description with
      | some v => [("location_description", v)]
      | none => []) ++
     [("inventory", JsonVal.list s.inventory),
      ("characters_met", JsonVal.list s.characters_met),
      ("current_goal", s.current_goal),
      ("completed_goals", JsonVal.list s.completed_goals),
      ("history", JsonVal.list (s.history.map encodeHistoryEntry))] ++
     (match s.custom_title with
      | some v => [("custom_title", v)]
      | none => []))

/-- One `history` entry read back from the saved document. -/
def decodeHistoryEntry : JsonVal → Option (String × JsonVal)
  | JsonVal.obj fs =>
    match lookup fs "action", lookup fs "result" with
    | some (JsonVal.str a), some r => some (a, r)
    | _, _ => none
  | _ => none

/-- The `history` array read back from the saved document. -/
def decodeHistory : List JsonVal → Option (List (String × JsonVal))
  | [] => some []
  | v :: vs =>
    match decodeHistoryEntry v, decodeHistory vs with
    | some p, some ps => some (p :: ps)
    | _, _ => none

/-- `game_utils.load_game` (game_utils.py lines 384-392): the saved
document parsed back into a game state; a document that does not carry
the state's keys with their shapes is rejected (`none`), matching a load
failure. -/
def load_game (doc : JsonVal) : Option GameState :=
  match doc with
  | JsonVal.obj fs =>
    match lookup fs "story_context", lookup fs "player", lookup fs "current_location",
          lookup fs "inventory", lookup fs "characters_met", lookup fs "current_goal",
          lookup fs "completed_goals", lookup fs "history" with
    | some (JsonVal.obj sc), some pl, some cl, some (JsonVal.list inv),
      some (JsonVal.list met), some cg, some (JsonVal.list comp), some (JsonVal.list hist) =>
      match decodeHistory hist with
      | some h =>
        some
          { story_context := sc
            player := pl
            current_location := cl
            location_description := lookup fs "location_description"
            inventory := inv
            characters_met := met
            current_goal := cg
            completed_goals := comp
            history := h
            custom_title := lookup fs "custom_title" }
      | none => none
    | _, _, _, _, _, _, _, _ => none
  | _ => none

/-- A concrete session setup for exercising the goal invariant: failed
world generation, failed player generation (default player), two turns of
which the first completes the starting goal and supplies a fresh one. -/
def sessionAW : List (String × Dict) :=
  [("Search the current area",
    [("action_result", JsonVal.str "You find the artifact chamber."),
     ("goal_completed", JsonVal.bool true),
     ("new_goal", JsonVal.str "Reach the artifact chamber")]),
   ("Explore deeper into the dungeon",
    [("action_result", JsonVal.str "You descend a winding stair.")])]

/-- The state the concrete session starts its turns from. -/
def sessionStartW : GameState :=
  match create_player (init_game initialState []) [] with
  | .ok s => s
  | .error _ => initialState

/-- The state the concrete session ends in. -/
def sessionEndW : GameState :=
  match processActions sessionStartW sessionAW with
  | .ok s => s
  | .error _ => initialState

/-- A state with an active goal, for exercising the goal transition. -/
def c2st : GameState := { initialState with current_goal := JsonVal.str "g" }

/-- An outcome that completes the goal and supplies a replacement. -/
def c2d : Dict :=
  [("action_result", JsonVal.str "done"), ("goal_completed", JsonVal.bool true),
   ("new_goal", JsonVal.str "h")]

/-- The state after processing `c2d` from `c2st`. -/
def c2out : GameState :=
  match process_player_action c2st "act" c2d with
  | .ok s => s
  | .error _ => initialState

/-- A malformed choices response carrying only 3 options. -/
def c6d : Dict :=
  [("choices", JsonVal.list [JsonVal.str "Run", JsonVal.str "Hide", JsonVal.str "Wait"])]

/-- A state with a location description on record. -/
def c7st : GameState := { initialState with location_description := some (JsonVal.str "old") }

/-- An outcome that moves the player and describes the new location. -/
def c7d : Dict :=
  [("action_result", JsonVal.str "x"), ("new_location", JsonVal.str "Hall"),
   ("location_description", JsonVal.str "A bright hall")]

/-- The state after processing `c7d` from `c7st`. -/
def c7out : GameState :=
  match process_player_action c7st "go" c7d with
  | .ok s => s
  | .error _ => initialState

/-- A state holding a torch, for exercising the loss no-op. -/
def c8st : GameState := { initialState with inventory := [JsonVal.str "torch"] }

/-- An outcome that loses an item the player does not hold. -/
def c8d : Dict :=
  [("action_result", JsonVal.str "x"),
   ("items_lost", JsonVal.list [JsonVal.str "rope"])]

/-! Helper lemmas: each mutation step touches only its own fields. -/

theorem updateLocation_shape (d : Dict) (st : GameState) :
    ∃ cl ld, updateLocation d st =
      { st with current_location := cl, location_description := ld } := by
  unfold updateLocation
  split
  · split
    · exact ⟨_, _, rfl⟩
    · exact ⟨st.current_location, st.location_description, rfl⟩
  · exact ⟨st.current_location, st.location_description, rfl⟩

theorem gainItems_shape (d : Dict) (st st' : GameState) (h : gainItems d st = .ok st') :
    ∃ gs, st' = { st with inventory := st.inventory ++ gs } := by
  unfold gainItems at h
  split at h
  · split at h
    · split at h
      · simp only [Except.ok.injEq] at h
        exact ⟨_, h.symm⟩
      · cases h
    · simp only [Except.ok.injEq] at h
      exact ⟨[], by simp [← h]⟩
  · simp only [Except.ok.injEq] at h
    exact ⟨[], by simp [← h]⟩

theorem loseItems_shape (d : Dict) (st st' : GameState) (h : loseItems d st = .ok st') :
    ∃ ls, st' = { st with inventory := removeItems st.inventory ls } := by
  unfold loseItems at h
  split at h
  · split at h
    · split at h
      · simp only [Except.ok.injEq] at h
        exact ⟨_, h.symm⟩
      · cases h
    · simp only [Except.ok.injEq] at h
      exact ⟨[], by simp [removeItems, ← h]⟩
  · simp only [Except.ok.injEq] at h
    exact ⟨[], by simp [removeItems, ← h]⟩

theorem meetCharacter_shape (d : Dict) (st : GameState) :
    ∃ cm, meetCharacter d st = { st with characters_met := cm } := by
  unfold meetCharacter
  split
  · split
    · exact ⟨_, rfl⟩
    · exact ⟨st.characters_met, rfl⟩
  · exact ⟨st.characters_met, rfl⟩

theorem updateGoal_shape (d : Dict) (st : GameState) :
    ∃ cg cgs, updateGoal d st = { st with current_goal := cg, completed_goals := cgs } := by
  unfold updateGoal
  simp only []
  repeat' split
  all_goals exact ⟨_, _, rfl⟩

theorem process_ok_intro (st : GameState) (a : String) (d : Dict) (r : JsonVal)
    (st3 st4 : GameState)
    (hr : lookup d "action_result" = some r)
    (h3 : gainItems d (updateLocation d { st with history := st.history ++ [(a, r)] }) = .ok st3)
    (h4 : loseItems d st3 = .ok st4) :
    process_player_action st a d = .ok (updateGoal d (meetCharacter d st4)) := by
  unfold process_player_action
  rw [hr]
  simp only [h3, h4]

theorem process_ok_elim (st : GameState) (a : String) (d : Dict) (r : JsonVal) (st' : GameState)
    (hr : lookup d "action_result" = some r)
    (hok : process_player_action st a d = .ok st') :
    ∃ st3 st4,
      gainItems d (updateLocation d { st with history := st.history ++ [(a, r)] }) = .ok st3 ∧
      loseItems d st3 = .ok st4 ∧
      st' = updateGoal d (meetCharacter d st4) := by
  unfold process_player_action at hok
  rw [hr] at hok
  simp only [] at hok
  split at hok
  next e heq => cases hok
  next st3 heq =>
    split at hok
    next e2 heq2 => cases hok
    next st4 heq2 =>
      simp only [Except.ok.injEq] at hok
      exact ⟨st3, st4, heq, heq2, hok.symm⟩

theorem updateGoal_completed (d : Dict) (st : GameState) (gc : JsonVal)
    (hgc : lookup d "goal_completed" = some gc) (ht : gc.truthy = true) :
    (updateGoal d st).completed_goals =
      (if st.current_goal.truthy = true ∧ st.current_goal ∉ st.completed_goals
       then st.completed_goals ++ [st.current_goal] else st.completed_goals) ∧
    (updateGoal d st).current_goal =
      (match lookup d "new_goal" with
       | some v => if v.truthy = true then v else st.current_goal
       | none => st.current_goal) := by
  unfold updateGoal
  by_cases h2 : st.current_goal.truthy = true ∧ st.current_goal ∉ st.completed_goals
  · cases hng : lookup d "new_goal" with
    | none => simp [hgc, ht, h2, hng]
    | some v =>
      by_cases h3 : v.truthy = true
      · simp [hgc, ht, h2, hng, h3]
      · simp [hgc, ht, h2, hng, h3]
  · cases hng : lookup d "new_goal" with
    | none => simp [hgc, ht, h2, hng]
    | some v =>
      by_cases h3 : v.truthy = true
      · simp [hgc, ht, h2, hng, h3]
      · simp [hgc, ht, h2, hng, h3]

theorem updateGoal_not_completed (d : Dict) (st : GameState)
    (h : ∀ gc, lookup d "goal_completed" = some gc → gc.truthy = false) :
    updateGoal d st = st := by
  unfold updateGoal
  cases hgc : lookup d "goal_completed" with
  | none => rfl
  | some gc => simp only [h gc hgc, Bool.false_eq_true, if_false]

theorem gainItems_of_effective (d : Dict) (st : GameState) (gs : List JsonVal)
    (hg : effectiveGained d = some gs) :
    gainItems d st = .ok { st with inventory := st.inventory ++ gs } := by
  unfold effectiveGained at hg
  unfold gainItems
  cases hl : lookup d "items_gained" with
  | none =>
    simp only [hl, Option.some.injEq] at hg
    subst hg
    simp [hl]
  | some v =>
    simp only [hl] at hg ⊢
    by_cases ht : v.truthy = true
    · simp only [ht, if_true] at hg ⊢
      cases v with
      | list xs =>
        simp only [Option.some.injEq] at hg
        subst hg
        simp [pyIterList]
      | null => simp [JsonVal.truthy] at ht
      | bool b => simp at hg
      | num n => simp at hg
      | str s => simp at hg
      | obj fs => simp at hg
    · rw [if_neg ht] at hg ⊢
      obtain rfl : ([] : List JsonVal) = gs := Option.some.inj hg
      simp

theorem loseItems_of_list (d : Dict) (st : GameState) (lost : List JsonVal)
    (hl : lookup d "items_lost" = some (JsonVal.list lost)) :
    loseItems d st = .ok { st with inventory := removeItems st.inventory lost } := by
  unfold loseItems
  rw [hl]
  cases lost with
  | nil => simp [JsonVal.truthy, removeItems]
  | cons x xs => simp [JsonVal.truthy, pyIterList]

theorem removeItems_cons (inv : List JsonVal) (l : JsonVal) (ls : List JsonVal) :
    removeItems inv (l :: ls) = removeItems (if l ∈ inv then inv.erase l else inv) ls := rfl

theorem count_removeItems (lost inv : List JsonVal) (x : JsonVal) :
    (removeItems inv lost).count x = inv.count x - min (lost.count x) (inv.count x) := by
  induction lost generalizing inv with
  | nil => simp [removeItems]
  | cons l ls ih =>
    rw [removeItems_cons]
    by_cases hm : l ∈ inv
    · rw [if_pos hm, ih, List.count_erase, List.count_cons]
      have hc : 0 < inv.count l := List.count_pos_iff.mpr hm
      by_cases hx : l = x
      · subst hx
        simp only [beq_self_eq_true, if_true]
        omega
      · have hbx : (l == x) = false := by simp [hx]
        simp only [hbx, Bool.false_eq_true, if_false]
        omega
    · rw [if_neg hm, ih, List.count_cons]
      have hc : inv.count l = 0 := List.count_eq_zero.mpr hm
      by_cases hx : l = x
      · subst hx
        simp only [beq_self_eq_true, if_true]
        omega
      · have hbx : (l == x) = false := by simp [hx]
        simp only [hbx, Bool.false_eq_true, if_false]
        omega

theorem updateLocation_goals (d : Dict) (s : GameState) :
    (updateLocation d s).current_goal = s.current_goal ∧
    (updateLocation d s).completed_goals = s.completed_goals := by
  obtain ⟨cl, ld, h⟩ := updateLocation_shape d s
  rw [h]
  exact ⟨rfl, rfl⟩

theorem gainItems_goals (d : Dict) (s s' : GameState) (h : gainItems d s = .ok s') :
    s'.current_goal = s.current_goal ∧ s'.completed_goals = s.completed_goals := by
  obtain ⟨gs, rfl⟩ := gainItems_shape d s s' h
  exact ⟨rfl, rfl⟩

theorem loseItems_goals (d : Dict) (s s' : GameState) (h : loseItems d s = .ok s') :
    s'.current_goal = s.current_goal ∧ s'.completed_goals = s.completed_goals := by
  obtain ⟨ls, rfl⟩ := loseItems_shape d s s' h
  exact ⟨rfl, rfl⟩

theorem meetCharacter_goals (d : Dict) (s : GameState) :
    (meetCharacter d s).current_goal = s.current_goal ∧
    (meetCharacter d s).completed_goals = s.completed_goals := by
  obtain ⟨cm, h⟩ := meetCharacter_shape d s
  rw [h]
  exact ⟨rfl, rfl⟩

theorem init_game_frame (st : GameState) (resp : Dict) :
    (init_game st resp).completed_goals = st.completed_goals := by
  cases resp <;> rfl

theorem create_player_goals (st st' : GameState) (p : Dict)
    (h : create_player st p = .ok st') :
    st'.current_goal = st.current_goal ∧ st'.completed_goals = st.completed_goals := by
  unfold create_player at h
  repeat' split at h
  all_goals cases h
  all_goals exact ⟨rfl, rfl⟩

theorem goal_invariant_step (st : GameState) (a : String) (d : Dict) (st' : GameState)
    (hinv : st.current_goal ∉ st.completed_goals)
    (hsafe : goalSafeStepB st d = true)
    (hok : process_player_action st a d = .ok st') :
    st'.current_goal ∉ st'.completed_goals := by
  cases hr : lookup d "action_result" with
  | none =>
    unfold process_player_action at hok
    rw [hr] at hok
    simp only [Except.ok.injEq] at hok
    subst hok
    exact hinv
  | some r =>
    obtain ⟨st3, st4, h3, h4, rfl⟩ := process_ok_elim st a d r st' hr hok
    have hul := updateLocation_goals d { st with history := st.history ++ [(a, r)] }
    have hg3 := gainItems_goals d _ st3 h3
    have hg4 := loseItems_goals d st3 st4 h4
    have hmc := meetCharacter_goals d st4
    have hcg : (meetCharacter d st4).current_goal = st.current_goal := by
      rw [hmc.1, hg4.1, hg3.1, hul.1]
    have hcgs : (meetCharacter d st4).completed_goals = st.completed_goals := by
      rw [hmc.2, hg4.2, hg3.2, hul.2]
    cases hgc : lookup d "goal_completed" with
    | none =>
      rw [updateGoal_not_completed d _ (fun gc hgcv => by rw [hgc] at hgcv; cases hgcv),
        hcg, hcgs]
      exact hinv
    | some gc =>
      by_cases ht : gc.truthy = true
      · unfold goalSafeStepB at hsafe
        rw [hgc] at hsafe
        simp only [ht, if_true] at hsafe
        cases hng : lookup d "new_goal" with
        | none => rw [hng] at hsafe; cases hsafe
        | some v =>
          rw [hng] at hsafe
          simp only [Bool.and_eq_true, Bool.not_eq_true', decide_eq_false_iff_not] at hsafe
          obtain ⟨⟨hv, hvcomp⟩, hvcur⟩ := hsafe
          obtain ⟨hcomp, hcur⟩ := updateGoal_completed d (meetCharacter d st4) gc hgc ht
          rw [hng] at hcur
          simp only [hv, if_true] at hcur
          rw [hcur, hcomp, hcg, hcgs]
          split
          · simp only [List.mem_append, List.mem_singleton]
            push_neg
            exact ⟨hvcomp, hvcur⟩
          · exact hvcomp
      · have ht2 : gc.truthy = false := by
          cases hb : gc.truthy
          · rfl
          · exact absurd hb ht
        rw [updateGoal_not_completed d _
            (fun gc2 hgcv => by rw [hgc] at hgcv; cases hgcv; exact ht2),
          hcg, hcgs]
        exact hinv

theorem goal_invariant_trace (acts : List (String × Dict)) (st st' : GameState)
    (hinv : st.current_goal ∉ st.completed_goals)
    (hsafe : goalSafeTraceB st acts = true)
    (hrun : processActions st acts = .ok st') :
    st'.current_goal ∉ st'.completed_goals := by
  induction acts generalizing st with
  | nil =>
    unfold processActions at hrun
    simp only [Except.ok.injEq] at hrun
    subst hrun
    exact hinv
  | cons p rest ih =>
    obtain ⟨a, d⟩ := p
    unfold processActions at hrun
    unfold goalSafeTraceB at hsafe
    simp only [Bool.and_eq_true] at hsafe
    obtain ⟨hstep, hrest⟩ := hsafe
    split at hrun
    next st1 heq =>
      simp only [heq] at hrest
      exact ih st1 (goal_invariant_step st a d st1 hinv hstep heq) hrest hrun
    next e heq => cases hrun

/-- Claim C1: the claim says player-creation validation never raises and
substitutes the full default player on any failed required-field check,
including responses that contain `player_name` but omit other fields.
The code disagrees: a response carrying `player_name` but no
`player_background` passes the guard and then raises `KeyError` on the
raw `player_data["player_background"]` access (main.py line 121).  This
theorem evaluates the embedded code at that failing input. -/
theorem claim_C1_create_player_raises :
    create_player initialState [("player_name", JsonVal.str "Bob")] =
      .error "KeyError: player_background" := rfl

/-- Claim C4: when generation fails or is unparseable during world
initialization (the response dict is empty), the story context equals the
fixed default document, whose `theme` is "Ancient cursed temple", whose
`conflict` is "A powerful artifact is causing monsters to appear", and
whose `possible_solutions` and `characters` each hold exactly 3 entries. -/
theorem claim_C4_default_context (st : GameState) :
    (init_game st generate_json_failure).story_context = default_game_context ∧
    lookup default_game_context "theme" = some (JsonVal.str "Ancient cursed temple") ∧
    lookup default_game_context "conflict" =
      some (JsonVal.str "A powerful artifact is causing monsters to appear") ∧
    (∃ xs, lookup default_game_context "possible_solutions" = some (JsonVal.list xs) ∧
      xs.length = 3) ∧
    (∃ xs, lookup default_game_context "characters" = some (JsonVal.list xs) ∧
      xs.length = 3) :=
  ⟨rfl, rfl, rfl, ⟨_, rfl, rfl⟩, ⟨_, rfl, rfl⟩⟩

/-- Claim C5, corrected: at world initialization the goal is taken from
`story_context.initial_goal` when the key is present; when the context was
generated but lacks the key, the goal is the fallback string "Explore the
area and discover your purpose"; when generation failed, it is "Find the
source of the monsters and deal with the artifact".  The tracker never
starts without an active goal. -/
theorem claim_C5_initial_goal (st : GameState) (resp : Dict) :
    (init_game st resp).current_goal =
      (match resp with
       | [] => JsonVal.str "Find the source of the monsters and deal with the artifact"
       | _ =>
         match lookup resp "initial_goal" with
         | some v => v
         | none => JsonVal.str "Explore the area and discover your purpose") := by
  cases resp <;> rfl

/-- Claim C5, counterexample: a generated context without `initial_goal`
leaves the tracker with the truthy fallback goal "Explore the area and
discover your purpose", not in the NoGoal state the claim requires. -/
theorem claim_C5_counterexample :
    (init_game initialState [("theme", JsonVal.str "The Sunken City")]).current_goal =
      JsonVal.str "Explore the area and discover your purpose" ∧
    (JsonVal.str "Explore the area and discover your purpose").truthy = true := ⟨rfl, rfl⟩

/-- Claim C6: every choices response that is empty, lacks the `choices`
key, or whose `choices` array does not hold exactly 4 entries yields the
fixed 4-item default list, never the malformed list itself. -/
theorem claim_C6_default_choices (d : Dict)
    (h : d = [] ∨ lookup d "choices" = none ∨
         ∃ xs, lookup d "choices" = some (JsonVal.list xs) ∧ xs.length ≠ 4) :
    get_player_choices d = .ok (JsonVal.list default_choices) := by
  rcases h with rfl | h | ⟨xs, h, hlen⟩
  · rfl
  · unfold get_player_choices
    rw [h]
  · unfold get_player_choices
    rw [h]
    simp [pyLen, hlen]

/-- Claim C6, witness: a 3-item choices response yields the default list. -/
theorem claim_C6_witness :
    (c6d = [] ∨ lookup c6d "choices" = none ∨
      ∃ xs, lookup c6d "choices" = some (JsonVal.list xs) ∧ xs.length ≠ 4) ∧
    get_player_choices c6d = .ok (JsonVal.list default_choices) :=
  ⟨Or.inr (Or.inr ⟨_, rfl, by decide⟩),
   claim_C6_default_choices c6d (Or.inr (Or.inr ⟨_, rfl, by decide⟩))⟩

/-- Claim C10: a response that is empty or lacks `action_result` appends
exactly the fixed no-op entry to `history` and leaves every other field of
the game state unchanged. -/
theorem claim_C10_noop_frame (st : GameState) (action : String) (d : Dict)
    (h : d = [] ∨ lookup d "action_result" = none) :
    process_player_action st action d =
      .ok { st with history :=
            st.history ++ [(action, JsonVal.str "Nothing significant happened.")] } := by
  have hn : lookup d "action_result" = none := by
    rcases h with rfl | h
    · rfl
    · exact h
  unfold process_player_action
  rw [hn]

/-- Claim C10, witness: the empty response from the fresh state. -/
theorem claim_C10_witness :
    (([] : Dict) = [] ∨ lookup ([] : Dict) "action_result" = none) ∧
    process_player_action initialState "Rest and recover" [] =
      .ok { initialState with
            history := [("Rest and recover", JsonVal.str "Nothing significant happened.")] } :=
  ⟨Or.inl rfl, claim_C10_noop_frame initialState "Rest and recover" [] (Or.inl rfl)⟩

/-- Claim C2, corrected: on a goal-completing outcome the non-empty
current goal is appended to `completed_goals` unless already present, and
afterwards the active goal is `new_goal` when a truthy one is supplied —
otherwise `current_goal` is left unchanged, so the just-completed goal
remains the active goal (the code never transitions to NoGoal). -/
theorem claim_C2_goal_transition (st : GameState) (a : String) (d : Dict)
    (r gc : JsonVal) (st' : GameState)
    (hr : lookup d "action_result" = some r)
    (hgc : lookup d "goal_completed" = some gc)
    (ht : gc.truthy = true)
    (hok : process_player_action st a d = .ok st') :
    st'.completed_goals =
      (if st.current_goal.truthy = true ∧ st.current_goal ∉ st.completed_goals
       then st.completed_goals ++ [st.current_goal] else st.completed_goals) ∧
    st'.current_goal =
      (match lookup d "new_goal" with
       | some v => if v.truthy = true then v else st.current_goal
       | none => st.current_goal) := by
  obtain ⟨st3, st4, h3, h4, rfl⟩ := process_ok_elim st a d r st' hr hok
  have hul := updateLocation_goals d { st with history := st.history ++ [(a, r)] }
  have hg3 := gainItems_goals d _ st3 h3
  have hg4 := loseItems_goals d st3 st4 h4
  have hmc := meetCharacter_goals d st4
  have hcg : (meetCharacter d st4).current_goal = st.current_goal := by
    rw [hmc.1, hg4.1, hg3.1, hul.1]
  have hcgs : (meetCharacter d st4).completed_goals = st.completed_goals := by
    rw [hmc.2, hg4.2, hg3.2, hul.2]
  obtain ⟨hcomp, hcur⟩ := updateGoal_completed d (meetCharacter d st4) gc hgc ht
  rw [hcomp, hcur, hcg, hcgs]
  exact ⟨rfl, rfl⟩

/-- Claim C2, counterexample: completing the goal "g" without a supplied
`new_goal` leaves "g" as the active goal (and in `completed_goals`); the
claim requires the NoGoal state with no active goal remaining. -/
theorem claim_C2_counterexample :
    (process_player_action { initialState with current_goal := JsonVal.str "g" } "act"
        [("action_result", JsonVal.str "done"), ("goal_completed", JsonVal.bool true)]).map
      (fun s => (s.current_goal, s.completed_goals)) =
    .ok (JsonVal.str "g", [JsonVal.str "g"]) := rfl

/-- Claim C2, witness: completing goal "g" with replacement "h". -/
theorem claim_C2_witness :
    process_player_action c2st "act" c2d = .ok c2out ∧
    c2out.completed_goals =
      (if c2st.current_goal.truthy = true ∧ c2st.current_goal ∉ c2st.completed_goals
       then c2st.completed_goals ++ [c2st.current_goal] else c2st.completed_goals) ∧
    c2out.current_goal =
      (match lookup c2d "new_goal" with
       | some v => if v.truthy = true then v else c2st.current_goal
       | none => c2st.current_goal) :=
  ⟨rfl,
   (claim_C2_goal_transition c2st "act" c2d (JsonVal.str "done") (JsonVal.bool true) c2out
     rfl rfl rfl rfl).1,
   (claim_C2_goal_transition c2st "act" c2d (JsonVal.str "done") (JsonVal.bool true) c2out
     rfl rfl rfl rfl).2⟩

theorem post_location_frame (d : Dict) (s2 st3 st4 : GameState)
    (h3 : gainItems d s2 = .ok st3) (h4 : loseItems d st3 = .ok st4) :
    (updateGoal d (meetCharacter d st4)).current_location = s2.current_location ∧
    (updateGoal d (meetCharacter d st4)).location_description = s2.location_description := by
  obtain ⟨gs, rfl⟩ := gainItems_shape d s2 st3 h3
  obtain ⟨ls, rfl⟩ := loseItems_shape d _ st4 h4
  obtain ⟨cm, hmc⟩ := meetCharacter_shape d _
  obtain ⟨cg, cgs, hug⟩ := updateGoal_shape d _
  rw [hug, hmc]
  exact ⟨rfl, rfl⟩

/-- Claim C7, corrected: `current_location` is overwritten exactly when a
truthy `new_location` is supplied; in that case `location_description` is
also overwritten — with the supplied value, or with the empty string when
the outcome carries none.  When no truthy `new_location` is supplied both
fields keep their previous values. -/
theorem claim_C7_location_update (st : GameState) (a : String) (d : Dict)
    (r : JsonVal) (st' : GameState)
    (hr : lookup d "action_result" = some r)
    (hok : process_player_action st a d = .ok st') :
    match lookup d "new_location" with
    | some v =>
      if v.truthy = true
      then st'.current_location = v ∧
           st'.location_description =
             some ((lookup d "location_description").getD (JsonVal.str ""))
      else st'.current_location = st.current_location ∧
           st'.location_description = st.location_description
    | none =>
      st'.current_location = st.current_location ∧
      st'.location_description = st.location_description := by
  obtain ⟨st3, st4, h3, h4, rfl⟩ := process_ok_elim st a d r st' hr hok
  obtain ⟨hl1, hl2⟩ := post_location_frame d _ st3 st4 h3 h4
  rw [hl1, hl2]
  cases hnl : lookup d "new_location" with
  | none => simp [updateLocation, hnl]
  | some v =>
    by_cases hv : v.truthy = true
    · simp [updateLocation, hnl, hv]
    · simp [updateLocation, hnl, hv]

/-- Claim C7, counterexample: an outcome that moves the player but omits
`location_description` overwrites the recorded description "old" with the
empty string, although no non-empty new value was supplied; the claim
requires the field to keep its previous value. -/
theorem claim_C7_counterexample :
    (process_player_action { initialState with location_description := some (JsonVal.str "old") }
        "go" [("action_result", JsonVal.str "x"), ("new_location", JsonVal.str "Hall")]).map
      (fun s => s.location_description) = .ok (some (JsonVal.str "")) ∧
    some (JsonVal.str "") ≠ some (JsonVal.str "old") := ⟨rfl, by decide⟩

/-- Claim C7, witness: moving to the Hall with a supplied description. -/
theorem claim_C7_witness :
    lookup c7d "action_result" = some (JsonVal.str "x") ∧
    process_player_action c7st "go" c7d = .ok c7out ∧
    (match lookup c7d "new_location" with
     | some v =>
       if v.truthy = true
       then c7out.current_location = v ∧
            c7out.location_description =
              some ((lookup c7d "location_description").getD (JsonVal.str ""))
       else c7out.current_location = c7st.current_location ∧
            c7out.location_description = c7st.location_description
     | none =>
       c7out.current_location = c7st.current_location ∧
       c7out.location_description = c7st.location_description) :=
  ⟨rfl, rfl, claim_C7_location_update c7st "go" c7d (JsonVal.str "x") c7out rfl rfl⟩

theorem post_inventory_frame (d : Dict) (st4 : GameState) :
    (updateGoal d (meetCharacter d st4)).inventory = st4.inventory := by
  obtain ⟨cm, hmc⟩ := meetCharacter_shape d st4
  obtain ⟨cg, cgs, hug⟩ := updateGoal_shape d (meetCharacter d st4)
  rw [hug, hmc]

theorem process_inventory (st : GameState) (a : String) (d : Dict) (r : JsonVal)
    (gs lost : List JsonVal)
    (hr : lookup d "action_result" = some r)
    (hg : effectiveGained d = some gs)
    (hl : lookup d "items_lost" = some (JsonVal.list lost)) :
    ∃ st', process_player_action st a d = .ok st' ∧
      st'.inventory = removeItems (st.inventory ++ gs) lost := by
  obtain ⟨cl, ld, hloc⟩ :=
    updateLocation_shape d { st with history := st.history ++ [(a, r)] }
  have h3 := gainItems_of_effective d
    (updateLocation d { st with history := st.history ++ [(a, r)] }) gs hg
  refine ⟨_, process_ok_intro st a d r _ _ hr h3 (loseItems_of_list d _ lost hl), ?_⟩
  rw [post_inventory_frame]
  rw [hloc]

/-- Claim C8: processing an outcome whose `items_lost` array names absent
items raises no error; each entry removes one occurrence of its item when
present (first match), and names absent from the inventory are silently
skipped, leaving their (zero) count unchanged.  The count equation makes
both halves precise: after the loss step each value's multiplicity drops
by the number of times it is named in `items_lost`, floored at zero. -/
theorem claim_C8_loss_noop (st : GameState) (a : String) (d : Dict) (r : JsonVal)
    (gs lost : List JsonVal)
    (hr : lookup d "action_result" = some r)
    (hg : effectiveGained d = some gs)
    (hl : lookup d "items_lost" = some (JsonVal.list lost))
    (habs : ∃ x ∈ lost, x ∉ st.inventory ++ gs) :
    ∃ st', process_player_action st a d = .ok st' ∧
      st'.inventory = removeItems (st.inventory ++ gs) lost ∧
      (∀ x ∈ lost, x ∉ st.inventory ++ gs → x ∉ st'.inventory) ∧
      (∀ x, st'.inventory.count x =
        (st.inventory ++ gs).count x -
          min (lost.count x) ((st.inventory ++ gs).count x)) := by
  obtain ⟨st', hok, hinv⟩ := process_inventory st a d r gs lost hr hg hl
  refine ⟨st', hok, hinv, ?_, ?_⟩
  · intro x hxl hxa
    have h0 : (st.inventory ++ gs).count x = 0 := List.count_eq_zero.mpr hxa
    have hc := count_removeItems lost (st.inventory ++ gs) x
    have hzero : (removeItems (st.inventory ++ gs) lost).count x = 0 := by omega
    rw [hinv]
    exact List.count_eq_zero.mp hzero
  · intro x
    rw [hinv]
    exact count_removeItems lost (st.inventory ++ gs) x

/-- Claim C8, witness: losing a rope the player never held, while holding
a torch. -/
theorem claim_C8_witness :
    lookup c8d "action_result" = some (JsonVal.str "x") ∧
    effectiveGained c8d = some [] ∧
    lookup c8d "items_lost" = some (JsonVal.list [JsonVal.str "rope"]) ∧
    (∃ x ∈ [JsonVal.str "rope"], x ∉ c8st.inventory ++ []) ∧
    (∃ st', process_player_action c8st "Drop the rope" c8d = .ok st' ∧
      st'.inventory = removeItems (c8st.inventory ++ []) [JsonVal.str "rope"] ∧
      (∀ x ∈ [JsonVal.str "rope"], x ∉ c8st.inventory ++ [] → x ∉ st'.inventory) ∧
      (∀ x, st'.inventory.count x =
        (c8st.inventory ++ []).count x -
          min (([JsonVal.str "rope"] : List JsonVal).count x)
            ((c8st.inventory ++ []).count x))) :=
  ⟨rfl, rfl, rfl, by decide,
   claim_C8_loss_noop c8st "Drop the rope" c8d (JsonVal.str "x") [] [JsonVal.str "rope"]
     rfl rfl rfl (by decide)⟩

/-- Claim C3, corrected: starting from a fresh game (any world and player
generation results) and processing any sequence of outcomes,
`completed_goals` never contains the active `current_goal` — provided
every goal-completing outcome supplies a truthy `new_goal` that is
neither the goal being completed nor already among the completed goals.
Without that proviso the invariant fails (see the counterexample): the
code keeps the completed goal active when no fresh replacement arrives. -/
theorem claim_C3_goal_invariant (resp_world resp_player : Dict)
    (acts : List (String × Dict)) (st2 st' : GameState)
    (hcp : create_player (init_game initialState resp_world) resp_player = .ok st2)
    (hsafe : goalSafeTraceB st2 acts = true)
    (hrun : processActions st2 acts = .ok st') :
    st'.current_goal ∉ st'.completed_goals := by
  have hbase : st2.completed_goals = [] := by
    rw [(create_player_goals _ st2 resp_player hcp).2, init_game_frame]
    rfl
  refine goal_invariant_trace acts st2 st' ?_ hsafe hrun
  rw [hbase]
  exact List.not_mem_nil _

/-- Claim C3, counterexample: with the default world and player, one
outcome completing the starting goal without a replacement leaves the
completed goal both active and in `completed_goals` — a reachable state
violating the invariant. -/
theorem claim_C3_counterexample :
    ((create_player (init_game initialState []) []).bind (fun st2 =>
        processActions st2
          [("Search the current area",
            [("action_result", JsonVal.str "The guardian falls and the monsters stop."),
             ("goal_completed", JsonVal.bool true)])])).map
      (fun s => decide (s.current_goal ∈ s.completed_goals)) = .ok true := rfl

/-- Claim C3, witness: a concrete safe session keeps the invariant. -/
theorem claim_C3_witness :
    create_player (init_game initialState []) [] = .ok sessionStartW ∧
    goalSafeTraceB sessionStartW sessionAW = true ∧
    processActions sessionStartW sessionAW = .ok sessionEndW ∧
    sessionEndW.current_goal ∉ sessionEndW.completed_goals :=
  ⟨rfl, rfl, rfl,
   claim_C3_goal_invariant [] [] sessionAW sessionStartW sessionEndW rfl rfl rfl⟩

theorem decodeHistoryEntry_encode (p : String × JsonVal) :
    decodeHistoryEntry (encodeHistoryEntry p) = some p := rfl

theorem decodeHistory_encode (l : List (String × JsonVal)) :
    decodeHistory (l.map encodeHistoryEntry) = some l := by
  induction l with
  | nil => rfl
  | cons p ps ih => simp [decodeHistory, decodeHistoryEntry_encode, ih]

/-- Claim C9: saving any game state and loading the document back yields
a state structurally equal to the original — `load_game (save_game s) =
some s` for every state, reachable ones included. -/
theorem claim_C9_round_trip (s : GameState) : load_game (save_game s) = some s := by
  obtain ⟨sc, pl, cl, ld, inv, met, cg, comp, hist, ct⟩ := s
  cases ld <;> cases ct <;>
    simp [save_game, load_game, lookup, decodeHistory_encode]
